import Mathlib

/-!
Verification development for the career-automation service
(`src/python-services/career-automation`).  The Python sources are shallowly
embedded: browser interactions (element visibility, clicks raising, page
content) are supplied by explicit environment records, Python exceptions are
modelled with an `Except` layer, and every driver function is translated
branch-for-branch from the source.  Timestamps, screenshots and log output are
not modelled; they do not influence any control flow below.
-/

namespace CareerAuto

/-- Substring occurrence on character lists: `startsWith n h` says the list
`h` begins with `n`.  Used to model the Python `in` operator on strings. -/
def startsWith : List Char → List Char → Bool
  | [], _ => true
  | _ :: _, [] => false
  | a :: as, b :: bs => a == b && startsWith as bs

/-- `subList n h` holds when `n` occurs contiguously inside `h` (Python `n in h`). -/
def subList : List Char → List Char → Bool
  | n, [] => n.isEmpty
  | n, c :: rest => startsWith n (c :: rest) || subList n rest

/-- Python string containment `needle in hay`. -/
def strOccurs (needle hay : String) : Bool :=
  subList needle.data hay.data

/-- ASCII lowering of a string, modelling Python `str.lower()` on the ASCII
signature strings and URLs handled here. -/
def strLower (s : String) : String :=
  ⟨s.data.map Char.toLower⟩

/-- Model of Python exceptions reaching a driver's `try` block:
`asyncio.TimeoutError` versus any other `Exception` (carrying `str(e)`). -/
inductive PyExc where
  | timeoutErr : PyExc
  | otherErr : String → PyExc
deriving DecidableEq, Repr

/-- `ApplicationStatus` from `browsers/base.py`. -/
inductive ApplicationStatus where
  | success
  | draft
  | login_required
  | captcha_blocked
  | form_error
  | timeout
  | failed
deriving DecidableEq, Repr

/-- The `.value` string of each `ApplicationStatus` enum member. -/
def statusValue : ApplicationStatus → String
  | .success => "success"
  | .draft => "draft"
  | .login_required => "login_required"
  | .captcha_blocked => "captcha_blocked"
  | .form_error => "form_error"
  | .timeout => "timeout"
  | .failed => "failed"

/-- `FormFieldType` from `browsers/base.py`. -/
inductive FormFieldType where
  | text
  | email
  | phone
  | file
  | select
  | radio
  | checkbox
  | textarea
deriving DecidableEq, Repr

/-- `FormField` from `browsers/base.py`. -/
structure FormField where
  name : String
  field_type : FormFieldType := .text
  label : Option String := none
  required : Bool := false
  options : List String := []
  selector : Option String := none
deriving DecidableEq, Repr

/-- `UserProfile` from `browsers/base.py` (pydantic model). -/
structure UserProfile where
  first_name : String
  last_name : String
  email : String
  phone : String
  city : Option String := none
  state : Option String := none
  country : Option String := none
  zip_code : Option String := none
  current_title : Option String := none
  years_experience : Option Int := none
  linkedin_url : Option String := none
  github_url : Option String := none
  portfolio_url : Option String := none
  degree : Option String := none
  university : Option String := none
  graduation_year : Option Int := none
  authorized_to_work : Bool := true
  requires_sponsorship : Bool := false
  willing_to_relocate : Bool := true
deriving DecidableEq, Repr

/-- `ApplicationRequest` from `browsers/base.py`.  `profileDump` carries the
Python value `str(request.profile.model_dump())` as an opaque string; the
pydantic dict serialization itself is not re-implemented. -/
structure ApplicationRequest where
  job_url : String
  profile : UserProfile
  profileDump : String := ""
  resume_path : Option String := none
  cover_letter : Option String := none
  platform : Option String := none
  dry_run : Bool := false
  take_screenshot : Bool := true
deriving Repr

/-- `ApplicationResult` from `browsers/base.py` (timestamp and screenshot
fields omitted; they never feed back into control flow). -/
structure ApplicationResult where
  status : ApplicationStatus
  job_url : String
  company : Option String := none
  job_title : Option String := none
  message : String
  fields_filled : Nat := 0
  fields_missing : List String := []
deriving DecidableEq, Repr

/-- Python truthiness of an `Optional[str]`: `None` and `""` are falsy. -/
def truthy : Option String → Bool
  | none => false
  | some s => !s.isEmpty

/-! ## Blocker detector (`JobApplicator.check_for_blockers`, base.py 278-308) -/

/-- The `login_indicators` list from `check_for_blockers`. -/
def login_indicators : List String :=
  ["sign in to apply", "login to apply", "sign in required", "please log in",
   "/login", "/signin"]

/-- The `captcha_indicators` list from `check_for_blockers`. -/
def captcha_indicators : List String :=
  ["captcha", "recaptcha", "hcaptcha", "challenge-running", "cf-turnstile"]

/-- `check_for_blockers`: each login indicator is tested against the lowered
page content and the lowered URL; each captcha indicator is tested against the
lowered page content only (the source has no URL test in the captcha loop). -/
def check_for_blockers (content url : String) : Option ApplicationStatus :=
  if login_indicators.any
      (fun i => strOccurs i (strLower content) || strOccurs i (strLower url)) then
    some .login_required
  else if captcha_indicators.any (fun i => strOccurs i (strLower content)) then
    some .captcha_blocked
  else
    none

/-- Modelled from the spec: the claim wording has the blocker detector match
both the URL and the page content against both signature lists.  Kept only to
compare against `check_for_blockers`, which it does not equal. -/
def check_for_blockers_spec (content url : String) : Option ApplicationStatus :=
  if login_indicators.any
      (fun i => strOccurs i (strLower content) || strOccurs i (strLower url)) then
    some .login_required
  else if captcha_indicators.any
      (fun i => strOccurs i (strLower content) || strOccurs i (strLower url)) then
    some .captcha_blocked
  else
    none

/-! ## Field-fill heuristics (`JobApplicator.fill_common_fields`, base.py 211-248) -/

/-- The `field_mapping` table from `fill_common_fields`. -/
def field_mapping : List (String × List String) :=
  [("first_name", ["first_name", "firstname", "given_name", "fname"]),
   ("last_name", ["last_name", "lastname", "family_name", "lname", "surname"]),
   ("email", ["email", "email_address", "emailaddress"]),
   ("phone", ["phone", "phone_number", "phonenumber", "mobile", "telephone"]),
   ("city", ["city", "location_city"]),
   ("state", ["state", "province", "region"]),
   ("zip_code", ["zip", "zipcode", "postal", "postalcode"]),
   ("linkedin_url", ["linkedin", "linkedin_url", "linkedinurl"]),
   ("current_title", ["current_title", "job_title", "title", "position"])]

/-- `getattr(profile, field, None)` restricted to the keys of `field_mapping`;
all of those profile attributes are strings or optional strings. -/
def getattrS (p : UserProfile) : String → Option String
  | "first_name" => some p.first_name
  | "last_name" => some p.last_name
  | "email" => some p.email
  | "phone" => some p.phone
  | "city" => p.city
  | "state" => p.state
  | "zip_code" => p.zip_code
  | "linkedin_url" => p.linkedin_url
  | "current_title" => p.current_title
  | _ => none

/-- The four locator pattern strings built for one synonym `selector` in
`fill_common_fields`. -/
def patternsFor (selector : String) : List String :=
  ["input[name*=\"" ++ selector ++ "\" i]",
   "input[id*=\"" ++ selector ++ "\" i]",
   "input[placeholder*=\"" ++ selector ++ "\" i]",
   "input[aria-label*=\"" ++ selector ++ "\" i]"]

/-- One iteration of the `for selector in selectors` loop: probe the four
patterns in order; at the first visible one, fill it (counting 1) — the
`break` leaves only the inner pattern loop.  A raising `fill` is caught by the
`except` and contributes 0 (the `continue` moves to the next synonym). -/
def fillSelector (visible fillRaises : String → Bool) (selector : String) : Nat :=
  match (patternsFor selector).find? visible with
  | some p => if fillRaises p then 0 else 1
  | none => 0

/-- Total `filled` contribution of one canonical attribute: zero when the
profile value is falsy, otherwise the sum over its synonym selectors. -/
def attrContrib (visible fillRaises : String → Bool) (profile : UserProfile)
    (attr : String) (sels : List String) : Nat :=
  if truthy (getattrS profile attr) then
    (sels.map (fillSelector visible fillRaises)).sum
  else 0

/-- `fill_common_fields`: the returned `filled` counter. -/
def fill_common_fields (visible fillRaises : String → Bool)
    (profile : UserProfile) : Nat :=
  (field_mapping.map (fun fs => attrContrib visible fillRaises profile fs.1 fs.2)).sum

/-! ## Missing-required-fields check (`GenericApplicator.apply`, base.py 426) -/

/-- The list comprehension
`[f.name for f in fields if f.required and f.name not in str(request.profile.model_dump())]`
with the serialized profile dict passed in as `profileDump`. -/
def missing_fields (fields : List FormField) (profileDump : String) : List String :=
  (fields.filter (fun f => f.required && !(strOccurs f.name profileDump))).map
    (fun f => f.name)

/-! ## Generic driver (`GenericApplicator.apply`, base.py 362-509) -/

/-- The `submit_selectors` list from `GenericApplicator.apply`. -/
def submit_selectors : List String :=
  ["button[type=\"submit\"]", "button:has-text(\"Submit\")",
   "input[type=\"submit\"]", "button:has-text(\"Send Application\")"]

/-- The submit loop of `GenericApplicator.apply`: selectors are probed in
order; the first visible one is clicked, `submitted` becomes true and the loop
breaks; a click that raises is swallowed by the per-selector `except` and the
loop continues with `submitted` still false. -/
def submitLoop (visible clickRaises : String → Bool) : List String → Bool
  | [] => false
  | s :: rest =>
    if visible s then
      if clickRaises s then submitLoop visible clickRaises rest else true
    else submitLoop visible clickRaises rest

/-- Abstract page environment for one generic-driver attempt.  Exceptions can
be injected at context creation and at navigation; all later element probes
have their own swallowed failure modes, modelled by the boolean oracles. -/
structure GenericEnv where
  newContextExc : Option PyExc := none
  gotoExc : Option PyExc := none
  content : String := ""
  url : String := ""
  fields : List FormField := []
  fillVisible : String → Bool := fun _ => false
  fillRaises : String → Bool := fun _ => false
  resumeUploaded : Bool := false
  submitVisible : String → Bool := fun _ => false
  submitClickRaises : String → Bool := fun _ => false

/-- Which return statement of `GenericApplicator.apply` produced the result. -/
inductive ExitPath where
  | blocked
  | dryRunStop
  | missingReq
  | submitted
  | noSubmit
  | raisedTimeout
  | raisedOther
deriving DecidableEq, Repr

/-- The body of `GenericApplicator.apply` after navigation succeeded,
returning (result, whether a submit control was clicked, exit site).  The
best-effort Apply-button click loop is not modelled: its `clicked_apply` flag
is never read afterwards and every failure in it is swallowed. -/
def genericAfterNav (env : GenericEnv) (req : ApplicationRequest) :
    ApplicationResult × Bool × ExitPath :=
  match check_for_blockers env.content env.url with
  | some blocker =>
    ({ status := blocker, job_url := req.job_url,
       message := "Application blocked: " ++ statusValue blocker },
     false, .blocked)
  | none =>
    let filledCommon := fill_common_fields env.fillVisible env.fillRaises req.profile
    let filled :=
      if truthy req.resume_path && env.resumeUploaded then filledCommon + 1
      else filledCommon
    let missing := missing_fields env.fields req.profileDump
    if req.dry_run then
      ({ status := .draft, job_url := req.job_url,
         message := "Dry run completed. Filled " ++ toString filled ++ " fields.",
         fields_filled := filled, fields_missing := missing },
       false, .dryRunStop)
    else if !missing.isEmpty then
      ({ status := .draft, job_url := req.job_url,
         message := "Application saved as draft. Missing required fields: "
           ++ toString missing,
         fields_filled := filled, fields_missing := missing },
       false, .missingReq)
    else if submitLoop env.submitVisible env.submitClickRaises submit_selectors then
      ({ status := .success, job_url := req.job_url,
         message := "Application submitted successfully", fields_filled := filled },
       true, .submitted)
    else
      ({ status := .draft, job_url := req.job_url,
         message := "Could not find submit button. Application saved as draft.",
         fields_filled := filled },
       false, .noSubmit)

/-- The `try` body of `GenericApplicator.apply`: context creation and
navigation may raise; the rest is `genericAfterNav`. -/
def genericApplyBody (env : GenericEnv) (req : ApplicationRequest) :
    Except PyExc (ApplicationResult × Bool × ExitPath) :=
  match env.newContextExc with
  | some e => .error e
  | none =>
    match env.gotoExc with
    | some e => .error e
    | none => .ok (genericAfterNav env req)

/-- Observable outcome of one attempt: the result, whether a submit control
was clicked, whether a browsing context was created, and whether the `finally`
block closed it. -/
structure GenericOutcome where
  result : ApplicationResult
  submitClicked : Bool
  exit : ExitPath
  contextOpened : Bool
  contextClosed : Bool
deriving Repr

/-- `GenericApplicator.apply` with its `except asyncio.TimeoutError`,
`except Exception` and `finally` clauses: a timeout maps to `timeout`, any
other exception to `failed` with the message embedded, and the `finally`
closes the context exactly when one was created. -/
def genericApply (env : GenericEnv) (req : ApplicationRequest) : GenericOutcome :=
  let opened := env.newContextExc.isNone
  match genericApplyBody env req with
  | .ok (r, clicked, path) => ⟨r, clicked, path, opened, opened⟩
  | .error .timeoutErr =>
    ⟨{ status := .timeout, job_url := req.job_url, message := "Page load timeout" },
     false, .raisedTimeout, opened, opened⟩
  | .error (.otherErr m) =>
    ⟨{ status := .failed, job_url := req.job_url,
       message := "Application failed: " ++ m },
     false, .raisedOther, opened, opened⟩

/-! ## Bounded step loops (linkedin.py 219-265, indeed.py 199-252) -/

/-- Result of a multi-step navigation loop: the `(success, message)` pair of
the source, plus the final value of the `step` counter and whether a submit
control was actually clicked. -/
structure LoopOut where
  success : Bool
  message : String
  steps : Nat
  submitClicked : Bool
deriving DecidableEq, Repr

/-- Shared shape of `_navigate_easy_apply_steps` and `_navigate_indeed_steps`:
`step` is the loop counter already consumed, `fuel` the remaining iterations
of the `while step < max_steps` loop.  Each iteration fills the current page
(filling never feeds back into the loop), looks for a submit control first —
on sight: stop before clicking under `dry_run`, else click and report the
success marker if present — then for a continue control, else breaks. -/
def stepLoopAux (submitVis contVis succMark : Nat → Bool) (dryRun : Bool) :
    Nat → Nat → LoopOut
  | step, 0 =>
    ⟨false, "Could not complete application after " ++ toString step ++ " steps",
     step, false⟩
  | step, fuel + 1 =>
    let s := step + 1
    if submitVis s then
      if dryRun then ⟨true, "Dry run completed - ready to submit", s, false⟩
      else if succMark s then ⟨true, "Application submitted successfully", s, true⟩
      else ⟨true, "Submit button clicked", s, true⟩
    else if contVis s then
      stepLoopAux submitVis contVis succMark dryRun s fuel
    else
      ⟨false, "Could not complete application after " ++ toString s ++ " steps",
       s, false⟩

/-- `LinkedInApplicator._navigate_easy_apply_steps` (`max_steps = 10`). -/
def navigate_easy_apply_steps (submitVis contVis succMark : Nat → Bool)
    (dryRun : Bool) : LoopOut :=
  stepLoopAux submitVis contVis succMark dryRun 0 10

/-- `IndeedApplicator._navigate_indeed_steps` (`max_steps = 15`). -/
def navigate_indeed_steps (submitVis contVis succMark : Nat → Bool)
    (dryRun : Bool) : LoopOut :=
  stepLoopAux submitVis contVis succMark dryRun 0 15

/-! ## LinkedIn driver (`LinkedInApplicator.apply`, linkedin.py 267-383) -/

/-- Outcome record shared by the LinkedIn and Indeed drivers. -/
structure DriverOutcome where
  result : ApplicationResult
  submitClicked : Bool
  contextOpened : Bool
  contextClosed : Bool
deriving Repr

/-- The common `except asyncio.TimeoutError` / `except Exception` / `finally`
wrapper of the LinkedIn and Indeed `apply` methods. -/
def wrapAttempt (job_url : String) (opened : Bool)
    (body : Except PyExc (ApplicationResult × Bool)) : DriverOutcome :=
  match body with
  | .ok (r, clicked) => ⟨r, clicked, opened, opened⟩
  | .error .timeoutErr =>
    ⟨{ status := .timeout, job_url := job_url, message := "Page load timeout" },
     false, opened, opened⟩
  | .error (.otherErr m) =>
    ⟨{ status := .failed, job_url := job_url,
       message := "Application failed: " ++ m }, false, opened, opened⟩

/-- Abstract page environment for one LinkedIn attempt. -/
structure LinkedInEnv where
  newContextExc : Option PyExc := none
  gotoExc : Option PyExc := none
  loggedIn : Bool := true
  jobTitle : Option String := none
  company : Option String := none
  easyApplyClicked : Bool := false
  content : String := ""
  url : String := ""
  submitVisibleAt : Nat → Bool := fun _ => false
  continueVisibleAt : Nat → Bool := fun _ => false
  successMarkerAt : Nat → Bool := fun _ => false

/-- The `try` body of `LinkedInApplicator.apply`. -/
def linkedinApplyBody (env : LinkedInEnv) (req : ApplicationRequest) :
    Except PyExc (ApplicationResult × Bool) :=
  match env.newContextExc with
  | some e => .error e
  | none =>
    match env.gotoExc with
    | some e => .error e
    | none =>
      if !env.loggedIn then
        .ok ({ status := .login_required, job_url := req.job_url,
               message := "LinkedIn login required. Please provide session cookies." },
             false)
      else if !env.easyApplyClicked then
        .ok ({ status := .draft, job_url := req.job_url,
               job_title := env.jobTitle, company := env.company,
               message := "Easy Apply button not found. Job may require external application." },
             false)
      else
        match check_for_blockers env.content env.url with
        | some blocker =>
          .ok ({ status := blocker, job_url := req.job_url,
                 job_title := env.jobTitle, company := env.company,
                 message := "Application blocked: " ++ statusValue blocker },
               false)
        | none =>
          let out := navigate_easy_apply_steps env.submitVisibleAt
            env.continueVisibleAt env.successMarkerAt req.dry_run
          if out.success then
            .ok ({ status := if !req.dry_run then .success else .draft,
                   job_url := req.job_url, job_title := env.jobTitle,
                   company := env.company, message := out.message },
                 out.submitClicked)
          else
            .ok ({ status := .draft, job_url := req.job_url,
                   job_title := env.jobTitle, company := env.company,
                   message := out.message },
                 out.submitClicked)

/-- `LinkedInApplicator.apply`. -/
def linkedinApply (env : LinkedInEnv) (req : ApplicationRequest) : DriverOutcome :=
  wrapAttempt req.job_url env.newContextExc.isNone (linkedinApplyBody env req)

/-! ## Indeed driver (`IndeedApplicator.apply`, indeed.py 254-379) -/

/-- Abstract page environment for one Indeed attempt.  `postClickUrl` and
`content` describe the page after the Apply click, where the external-site,
login and blocker checks run. -/
structure IndeedEnv where
  newContextExc : Option PyExc := none
  gotoExc : Option PyExc := none
  loggedIn : Bool := true
  jobTitle : Option String := none
  company : Option String := none
  applyClicked : Bool := false
  postClickUrl : String := ""
  content : String := ""
  submitVisibleAt : Nat → Bool := fun _ => false
  continueVisibleAt : Nat → Bool := fun _ => false
  successMarkerAt : Nat → Bool := fun _ => false

/-- The `try` body of `IndeedApplicator.apply`.  Note the external-site check
lowercases the URL while the login check does not, exactly as in the source. -/
def indeedApplyBody (env : IndeedEnv) (req : ApplicationRequest) :
    Except PyExc (ApplicationResult × Bool) :=
  match env.newContextExc with
  | some e => .error e
  | none =>
    match env.gotoExc with
    | some e => .error e
    | none =>
      if !env.applyClicked then
        .ok ({ status := .draft, job_url := req.job_url,
               job_title := env.jobTitle, company := env.company,
               message := "Apply button not found" }, false)
      else if !(strOccurs "indeed.com" (strLower env.postClickUrl)) then
        .ok ({ status := .draft, job_url := req.job_url,
               job_title := env.jobTitle, company := env.company,
               message := "External application site: " ++ env.postClickUrl },
             false)
      else if !env.loggedIn && strOccurs "/account/login" env.postClickUrl then
        .ok ({ status := .login_required, job_url := req.job_url,
               job_title := env.jobTitle, company := env.company,
               message := "Indeed login required. Please provide session cookies." },
             false)
      else
        match check_for_blockers env.content env.postClickUrl with
        | some blocker =>
          .ok ({ status := blocker, job_url := req.job_url,
                 job_title := env.jobTitle, company := env.company,
                 message := "Application blocked: " ++ statusValue blocker },
               false)
        | none =>
          let out := navigate_indeed_steps env.submitVisibleAt
            env.continueVisibleAt env.successMarkerAt req.dry_run
          .ok ({ status := if out.success && !req.dry_run then .success else .draft,
                 job_url := req.job_url, job_title := env.jobTitle,
                 company := env.company, message := out.message },
               out.submitClicked)

/-- `IndeedApplicator.apply`. -/
def indeedApply (env : IndeedEnv) (req : ApplicationRequest) : DriverOutcome :=
  wrapAttempt req.job_url env.newContextExc.isNone (indeedApplyBody env req)

/-! ## Driver selection (`main.py`: `apply_to_job` 316-321, `batch_apply_to_jobs` 392-397) -/

/-- The three applicator classes. -/
inductive DriverKind where
  | linkedinD
  | indeedD
  | genericD
deriving DecidableEq, Repr

/-- The applicator-selection chain of `apply_to_job`:
`if platform == "linkedin" or "linkedin.com" in job_url.lower(): ... elif
platform == "indeed" or "indeed.com" in job_url.lower(): ... else generic`.
The selection inside `batch_apply_to_jobs` is this function at `platform = none`
(its request model has no platform hint). -/
def select_applicator (platform : Option String) (job_url : String) : DriverKind :=
  if (platform == some "linkedin") || strOccurs "linkedin.com" (strLower job_url) then
    .linkedinD
  else if (platform == some "indeed") || strOccurs "indeed.com" (strLower job_url) then
    .indeedD
  else
    .genericD

/-! ## Batch application (`batch_apply_to_jobs`, main.py 350-421) -/

/-- `BatchApplyResponse` from main.py. -/
structure BatchApplyResponse where
  total_jobs : Nat
  successful : Nat
  drafted : Nat
  failed : Nat
  results : List ApplicationResult
deriving Repr

/-- Python list slice `l[:k]` for an arbitrary (possibly negative) `int` stop. -/
def pySliceTo (l : List α) (k : Int) : List α :=
  if 0 ≤ k then l.take k.toNat else l.take ((l.length : Int) + k).toNat

/-- One iteration of the per-result stat tracking: `success` increments
`successful`, `draft` increments `drafted`, every other status `failed`. -/
def tallyStatus (acc : Nat × Nat × Nat) (st : ApplicationStatus) : Nat × Nat × Nat :=
  match st with
  | .success => (acc.1 + 1, acc.2.1, acc.2.2)
  | .draft => (acc.1, acc.2.1 + 1, acc.2.2)
  | _ => (acc.1, acc.2.1, acc.2.2 + 1)

/-- `batch_apply_to_jobs`: truncate the URL list to `max_applications`,
apply to each URL in order (the per-attempt outcome is supplied by the
`applyAt` oracle, indexed by position and URL), collect results in request
order and tally each result into exactly one bucket. -/
def batch_apply_to_jobs (applyAt : Nat → String → ApplicationResult)
    (job_urls : List String) (max_applications : Int) : BatchApplyResponse :=
  let urls := pySliceTo job_urls max_applications
  let results := urls.enum.map (fun p => applyAt p.1 p.2)
  let c := results.foldl (fun acc r => tallyStatus acc r.status) (0, 0, 0)
  { total_jobs := urls.length, successful := c.1, drafted := c.2.1,
    failed := c.2.2, results := results }

/-! ## Form analysis (`analyze_job_form`, main.py 460-675) -/

/-- The `auto_fillable_patterns` list from `analyze_job_form`. -/
def auto_fillable_patterns : List String :=
  ["first_name", "last_name", "email", "phone", "city", "state",
   "country", "linkedin", "github", "portfolio", "current_title"]

/-- The blocker list built by `analyze_job_form`: at most one
`"login_required"` entry (content or URL match) followed by at most one
`"captcha_detected"` entry (content match only), mirroring the two
break-on-first-match loops. -/
def analysisBlockers (content url : String) : List String :=
  (if login_indicators.any
      (fun i => strOccurs i (strLower content) || strOccurs i (strLower url)) then
    ["login_required"] else [])
  ++ (if captcha_indicators.any (fun i => strOccurs i (strLower content)) then
    ["captcha_detected"] else [])

/-- `required_fields`: names of the detected fields flagged required. -/
def required_field_names (fields : List FormField) : List String :=
  (fields.filter (fun f => f.required)).map (fun f => f.name)

/-- `fillable_count`: detected fields whose lowered name contains one of the
auto-fillable patterns. -/
def fillable_count (fields : List FormField) : Nat :=
  (fields.filter
    (fun f => auto_fillable_patterns.any (fun p => strOccurs p (strLower f.name)))).length

/-- `estimated_fill_rate` from `analyze_job_form`.  The Python float
expression `int((fillable_count / max(total_required, 1)) * 100)` is modelled
by exact natural division `fillable * 100 / max total 1` (truncation). -/
def estimated_fill_rate (fields : List FormField) : Nat :=
  let required := required_field_names fields
  let total_required := if required.isEmpty then fields.length else required.length
  let rate :=
    if 0 < total_required then fillable_count fields * 100 / max total_required 1
    else 100
  min 100 rate

/-- Modelled from the spec: the claim wording computes the estimate as
fillable count divided by the count of required fields, capped at 100, with
no fallback denominator.  Kept only to compare against
`estimated_fill_rate`, which it does not equal. -/
def estimated_fill_rate_spec (fields : List FormField) : Nat :=
  min 100 (fillable_count fields * 100 / (required_field_names fields).length)

/-- `can_apply = len(blockers) == 0 and estimated_fill_rate >= 60`. -/
def analyze_can_apply (content url : String) (fields : List FormField) : Bool :=
  (analysisBlockers content url).isEmpty && decide (60 ≤ estimated_fill_rate fields)

/-! ## Secrets-at-rest decryption (`security/encryption.py`, `decrypt` 47-112) -/

/-- Abstract cryptographic primitives used by `decrypt`.  Bytes are lists of
naturals; a primitive returning `Except.error` models the underlying library
raising (base64 padding errors, GCM auth-tag verification failure, UTF-8
decode failure). -/
structure CryptoEnv where
  b64decode : String → Except String (List Nat)
  deriveKey : String → List Nat → List Nat
  aeadDecrypt : List Nat → List Nat → List Nat → List Nat → Except String (List Nat)
  utf8decode : List Nat → Except String String

/-- Splitting a character list at every occurrence of `sep`, keeping empty
segments, as Python `str.split(sep)` does for a one-character separator. -/
def splitChar (sep : Char) : List Char → List (List Char)
  | [] => [[]]
  | c :: rest =>
    if c == sep then [] :: splitChar sep rest
    else
      match splitChar sep rest with
      | [] => [[c]]
      | h :: t => (c :: h) :: t

/-- Python `s.split(sep)` for a one-character separator. -/
def pySplit (sep : Char) (s : String) : List String :=
  (splitChar sep s.data).map (fun l => ⟨l⟩)

/-- The body of `decrypt` applied to the already-split payload, mirroring the
tuple unpacking `version, salt_b64, iv_b64, auth_tag_b64, ciphertext_b64 =
parts` after the five-part check (any other shape takes the part-count
error). -/
def decryptParts (env : CryptoEnv) (secret : String) :
    List String → Except String String
  | [version, salt_b64, iv_b64, auth_tag_b64, ciphertext_b64] =>
    if version ≠ "v1" then
      .error ("Unsupported encryption version: " ++ version)
    else
      match env.b64decode salt_b64 with
      | .error e => .error ("Decryption failed: " ++ e)
      | .ok salt =>
        match env.b64decode iv_b64 with
        | .error e => .error ("Decryption failed: " ++ e)
        | .ok iv =>
          match env.b64decode auth_tag_b64 with
          | .error e => .error ("Decryption failed: " ++ e)
          | .ok auth_tag =>
            match env.b64decode ciphertext_b64 with
            | .error e => .error ("Decryption failed: " ++ e)
            | .ok ciphertext =>
              if salt.length ≠ 32 then
                .error ("Invalid salt length: " ++ toString salt.length)
              else if iv.length ≠ 16 then
                .error ("Invalid IV length: " ++ toString iv.length)
              else if auth_tag.length ≠ 16 then
                .error ("Invalid auth tag length: " ++ toString auth_tag.length)
              else
                match env.aeadDecrypt (env.deriveKey secret salt) iv auth_tag
                    ciphertext with
                | .error e => .error ("Decryption failed: " ++ e)
                | .ok plaintext =>
                  match env.utf8decode plaintext with
                  | .error e => .error ("Decryption failed: " ++ e)
                  | .ok s => .ok s
  | parts =>
    .error ("Invalid encrypted payload format. Expected 5 parts, got "
      ++ toString parts.length)

/-- `decrypt` from encryption.py with the secret passed explicitly.  Every
`Except.error` models raising `EncryptionError`: the explicit validation
raises carry their message verbatim, and any primitive exception is wrapped
by the outer handler into the single decryption-failure error with a
`Decryption failed` message. -/
def decrypt (env : CryptoEnv) (secret payload : String) : Except String String :=
  decryptParts env secret (pySplit (Char.ofNat 58) payload)

/-- Whether an `Except` value is a successful result. -/
def isOkE : Except ε α → Bool
  | .ok _ => true
  | .error _ => false

/-- The malformed conditions named by the specification, on the split parts:
wrong part count, wrong version tag, wrong decoded salt/IV/auth-tag length, or
AEAD authentication failure (conditions on decoded components apply when their
base64 decoding succeeds). -/
def badParts (env : CryptoEnv) (secret : String) : List String → Bool
  | [version, salt_b64, iv_b64, auth_tag_b64, ciphertext_b64] =>
    (version != "v1")
      || (match env.b64decode salt_b64, env.b64decode iv_b64,
            env.b64decode auth_tag_b64, env.b64decode ciphertext_b64 with
          | .ok salt, .ok iv, .ok auth_tag, .ok ciphertext =>
            (salt.length != 32) || (iv.length != 16) || (auth_tag.length != 16)
              || !(isOkE (env.aeadDecrypt (env.deriveKey secret salt) iv
                    auth_tag ciphertext))
          | _, _, _, _ => false)
  | _ => true

/-- The malformed-payload conditions of the specification for a whole
payload. -/
def badPayload (env : CryptoEnv) (secret payload : String) : Bool :=
  badParts env secret (pySplit (Char.ofNat 58) payload)

/-! ## Concrete instances used to evaluate the definitions -/

/-- A minimal profile: only the four mandatory string attributes are set. -/
def profileA : UserProfile :=
  { first_name := "A", last_name := "B", email := "C", phone := "D" }

/-- A profile whose only truthy fillable attribute is `first_name`. -/
def profileB : UserProfile :=
  { first_name := "John", last_name := "", email := "", phone := "" }

/-- A page where the name-locator patterns of the two synonyms `first_name`
and `firstname` both have a visible element. -/
def visibleTwoSynonyms : String → Bool := fun p =>
  p == "input[name*=\"first_name\" i]" || p == "input[name*=\"firstname\" i]"

/-- An element-interaction oracle that never raises. -/
def neverRaises : String → Bool := fun _ => false

/-- A page-control oracle under which no control is ever visible. -/
def noControl : Nat → Bool := fun _ => false

/-- A plain non-dry-run request. -/
def reqLive : ApplicationRequest :=
  { job_url := "https://example.com/job", profile := profileA }

/-- The same request with `dry_run` set. -/
def reqDry : ApplicationRequest :=
  { job_url := "https://example.com/job", profile := profileA, dry_run := true }

/-- A clean generic page whose first submit selector is visible. -/
def geSubmitW : GenericEnv :=
  { submitVisible := fun s => s == "button[type=\"submit\"]" }

/-- A generic attempt whose navigation raises a timeout. -/
def geTimeoutW : GenericEnv := { gotoExc := some .timeoutErr }

/-- A generic attempt whose navigation raises a non-timeout exception. -/
def geOtherW : GenericEnv := { gotoExc := some (.otherErr "boom") }

/-- A LinkedIn attempt whose navigation raises a timeout. -/
def leTimeoutW : LinkedInEnv := { gotoExc := some .timeoutErr }

/-- A LinkedIn attempt whose navigation raises a non-timeout exception. -/
def leOtherW : LinkedInEnv := { gotoExc := some (.otherErr "boom") }

/-- A clean Indeed attempt that reaches the step loop and sees a submit
control on the first step. -/
def ieSubmitW : IndeedEnv :=
  { applyClicked := true, postClickUrl := "https://www.indeed.com/viewjob",
    submitVisibleAt := fun _ => true }

/-- Two detected fields, none required, one with an auto-fillable name. -/
def c8fieldsW : List FormField := [{ name := "zzz" }, { name := "email" }]

/-- One required detected field with an auto-fillable name. -/
def c8reqFieldW : List FormField := [{ name := "email", required := true }]

/-- One detected field, not required, not auto-fillable. -/
def c8plainFieldW : List FormField := [{ name := "zzz" }]

/-- One required detected field whose name is the empty string. -/
def unnamedReqFieldW : List FormField := [{ name := "", required := true }]

/-- A clean generic page whose only detected field is required and unnamed. -/
def geUnnamedW : GenericEnv := { fields := unnamedReqFieldW }

/-- A batch oracle where every attempt reports success. -/
def applyAtW : Nat → String → ApplicationResult :=
  fun _ u => { status := .success, job_url := u, message := "" }

/-- Crypto primitives that always succeed, for exercising `decrypt`. -/
def cryptoEnvW : CryptoEnv :=
  { b64decode := fun s => .ok (s.data.map Char.toNat),
    deriveKey := fun _ _ => [],
    aeadDecrypt := fun _ _ _ ct => .ok ct,
    utf8decode := fun _ => .ok "ok" }

/-! ## Helper lemmas -/

theorem subList_nil_left (l : List Char) : subList [] l = true := by
  cases l <;> simp [subList, startsWith, List.isEmpty]

theorem strOccurs_nil_left (s : String) : strOccurs "" s = true := by
  simpa [strOccurs] using subList_nil_left s.data

theorem check_for_blockers_mem (content url : String) (st : ApplicationStatus)
    (h : check_for_blockers content url = some st) :
    st = .login_required ∨ st = .captcha_blocked := by
  unfold check_for_blockers at h
  split_ifs at h <;> simp_all

theorem fillSelector_le_one (visible fillRaises : String → Bool) (sel : String) :
    fillSelector visible fillRaises sel ≤ 1 := by
  rcases h : (patternsFor sel).find? visible with _ | p <;>
    simp only [fillSelector, h] <;> try split_ifs
  all_goals omega

theorem sum_map_le_length (f : String → Nat) (h : ∀ x, f x ≤ 1) :
    ∀ l : List String, (l.map f).sum ≤ l.length := by
  intro l
  induction l with
  | nil => simp
  | cons a t ih =>
    have := h a
    simp only [List.map_cons, List.sum_cons, List.length_cons]
    omega

theorem missing_fields_nil_of_unnamed (fields : List FormField) (dump : String)
    (h : ∀ f ∈ fields, f.required = true → f.name = "") :
    missing_fields fields dump = [] := by
  unfold missing_fields
  induction fields with
  | nil => rfl
  | cons f t ih =>
    have hpf : (f.required && !(strOccurs f.name dump)) = false := by
      cases hr : f.required with
      | false => simp
      | true =>
        have hn := h f (by simp) hr
        simp [hn, strOccurs_nil_left]
    simp only [List.filter_cons, hpf]
    exact ih (fun g hg => h g (by simp [hg]))

theorem stepLoopAux_steps_le (sv cv sm : Nat → Bool) (d : Bool) :
    ∀ (fuel step : Nat), (stepLoopAux sv cv sm d step fuel).steps ≤ step + fuel := by
  intro fuel
  induction fuel with
  | zero => intro step; simp [stepLoopAux]
  | succ n ih =>
    intro step
    have hrec := ih (step + 1)
    cases d <;>
      by_cases h1 : sv (step + 1) = true <;>
      by_cases h2 : cv (step + 1) = true <;>
      by_cases h3 : sm (step + 1) = true <;>
      simp [stepLoopAux, h1, h2, h3] <;>
      omega

theorem stepLoopAux_msg (sv cv sm : Nat → Bool) (d : Bool) :
    ∀ (fuel step : Nat), (stepLoopAux sv cv sm d step fuel).success = false →
      (stepLoopAux sv cv sm d step fuel).message =
        "Could not complete application after "
          ++ toString (stepLoopAux sv cv sm d step fuel).steps ++ " steps" := by
  intro fuel
  induction fuel with
  | zero => intro step _; simp [stepLoopAux]
  | succ n ih =>
    intro step
    have hrec := ih (step + 1)
    cases d <;>
      by_cases h1 : sv (step + 1) = true <;>
      by_cases h2 : cv (step + 1) = true <;>
      by_cases h3 : sm (step + 1) = true <;>
      simp [stepLoopAux, h1, h2, h3] <;>
      exact hrec

theorem stepLoopAux_dry_no_click (sv cv sm : Nat → Bool) :
    ∀ (fuel step : Nat), (stepLoopAux sv cv sm true step fuel).submitClicked = false := by
  intro fuel
  induction fuel with
  | zero => intro step; simp [stepLoopAux]
  | succ n ih =>
    intro step
    have hrec := ih (step + 1)
    by_cases h1 : sv (step + 1) = true <;>
      by_cases h2 : cv (step + 1) = true <;>
      simp [stepLoopAux, h1, h2] <;>
      try exact hrec

theorem stepLoopAux_click_of_success (sv cv sm : Nat → Bool) :
    ∀ (fuel step : Nat), (stepLoopAux sv cv sm false step fuel).success = true →
      (stepLoopAux sv cv sm false step fuel).submitClicked = true := by
  intro fuel
  induction fuel with
  | zero => intro step h; exact absurd h (by simp [stepLoopAux])
  | succ n ih =>
    intro step
    have hrec := ih (step + 1)
    by_cases h1 : sv (step + 1) = true <;>
      by_cases h2 : cv (step + 1) = true <;>
      by_cases h3 : sm (step + 1) = true <;>
      simp [stepLoopAux, h1, h2, h3] <;>
      exact hrec

theorem missing_fields_mem (fields : List FormField) (dump m : String) :
    m ∈ missing_fields fields dump ↔
      ∃ f ∈ fields, f.required = true ∧ strOccurs f.name dump = false ∧ f.name = m := by
  simp only [missing_fields, List.mem_map, List.mem_filter, Bool.and_eq_true,
    Bool.not_eq_true']
  constructor
  · rintro ⟨f, ⟨hf, hreq, hocc⟩, hname⟩
    exact ⟨f, hf, hreq, hocc, hname⟩
  · rintro ⟨f, hf, hreq, hocc, hname⟩
    exact ⟨f, ⟨hf, hreq, hocc⟩, hname⟩

theorem genericAfterNav_exit_ne_missing (env : GenericEnv) (req : ApplicationRequest)
    (hnil : missing_fields env.fields req.profileDump = []) :
    (genericAfterNav env req).2.2 ≠ ExitPath.missingReq := by
  unfold genericAfterNav
  rcases hb : check_for_blockers env.content env.url with _ | b
  · by_cases hd : req.dry_run = true
    · simp [hd, hnil]
    · by_cases hs :
        submitLoop env.submitVisible env.submitClickRaises submit_selectors = true <;>
        simp [hd, hs, hnil]
  · simp

theorem foldl_tally_sum (l : List ApplicationStatus) :
    ∀ acc : Nat × Nat × Nat,
      (l.foldl tallyStatus acc).1 + (l.foldl tallyStatus acc).2.1
          + (l.foldl tallyStatus acc).2.2
        = acc.1 + acc.2.1 + acc.2.2 + l.length := by
  induction l with
  | nil => intro acc; simp
  | cons s t ih =>
    intro acc
    simp only [List.foldl_cons, List.length_cons]
    rw [ih]
    cases s <;> simp [tallyStatus] <;> omega

/-! ## Claim theorems -/

/-- Claim C2, counterexample: on a page where the name-locator patterns of two
synonyms of `first_name` are both visible, the single attribute `first_name`
contributes 2 to the filled count — the `break` in `fill_common_fields` only
leaves the inner pattern loop, not the synonym loop, so the heuristic does not
stop at the first visible matching element for an attribute and the
per-attribute contribution exceeds 1. -/
theorem claim2_counterexample :
    attrContrib visibleTwoSynonyms neverRaises profileB "first_name"
      ["first_name", "firstname", "given_name", "fname"] = 2
    ∧ ("first_name", ["first_name", "firstname", "given_name", "fname"]) ∈ field_mapping
    ∧ fill_common_fields visibleTwoSynonyms neverRaises profileB = 2
    ∧ ¬(2 ≤ 1) := by
  refine ⟨by decide, by decide, by decide, by decide⟩

/-- Claim C2, amended: the first-visible-match cutoff holds per synonym
selector, not per attribute — each `(attribute, synonym)` pair sets at most
one element and contributes at most 1, so an attribute contributes at most the
number of its synonym selectors (which is more than 1). -/
theorem claim2_amended :
    ∀ (visible fillRaises : String → Bool) (profile : UserProfile)
      (attr : String) (sels : List String),
      (∀ sel, fillSelector visible fillRaises sel ≤ 1)
      ∧ attrContrib visible fillRaises profile attr sels ≤ sels.length := by
  intro visible fillRaises profile attr sels
  refine ⟨fun sel => fillSelector_le_one visible fillRaises sel, ?_⟩
  unfold attrContrib
  split_ifs
  · exact sum_map_le_length _ (fillSelector_le_one visible fillRaises) sels
  · exact Nat.zero_le _

/-- Claim C4, counterexample: a page whose URL contains the challenge
indicator `captcha` but whose content is clean is classified as having no
blocker by `check_for_blockers`, while the claimed algorithm (both URL and
content matched against both lists) would return `captcha_blocked`: the source
matches challenge indicators against the page content only. -/
theorem claim4_counterexample :
    check_for_blockers "just a page" "https://jobs.example.com/captcha-check" = none
    ∧ check_for_blockers_spec "just a page" "https://jobs.example.com/captcha-check"
        = some ApplicationStatus.captcha_blocked
    ∧ check_for_blockers "just a page" "https://jobs.example.com/captcha-check"
        ≠ check_for_blockers_spec "just a page" "https://jobs.example.com/captcha-check" := by
  refine ⟨by decide, by decide, by decide⟩

/-- Claim C4, amended: blocker detection matches case-insensitively, login
indicators against the page content and the URL, challenge indicators against
the page content only; login indicators are checked first, so a page matching
both yields `login_required`. -/
theorem claim4_amended :
    ∀ (content url : String),
      (check_for_blockers content url = some .login_required ↔
        ∃ i ∈ login_indicators,
          strOccurs i (strLower content) = true ∨ strOccurs i (strLower url) = true)
      ∧ (check_for_blockers content url = some .captcha_blocked ↔
        ((¬∃ i ∈ login_indicators,
            strOccurs i (strLower content) = true ∨ strOccurs i (strLower url) = true)
          ∧ ∃ i ∈ captcha_indicators, strOccurs i (strLower content) = true))
      ∧ (check_for_blockers content url = none ↔
        ((¬∃ i ∈ login_indicators,
            strOccurs i (strLower content) = true ∨ strOccurs i (strLower url) = true)
          ∧ ¬∃ i ∈ captcha_indicators, strOccurs i (strLower content) = true)) := by
  intro content url
  unfold check_for_blockers
  split_ifs with h1 h2 <;>
    simp_all [List.any_eq_true]

/-- Claim C5, counterexample: with the explicit platform hint `indeed` but a
URL on the network domain, `apply_to_job` selects the LinkedIn applicator —
the hint does not take precedence, because each branch of the selection chain
tests the hint and the URL disjunctively. -/
theorem claim5_counterexample :
    select_applicator (some "indeed") "https://www.linkedin.com/jobs/view/123"
      = DriverKind.linkedinD
    ∧ DriverKind.linkedinD ≠ DriverKind.indeedD := by
  refine ⟨by decide, by decide⟩

/-- Claim C5, amended: selection is a disjunctive chain — the quick-apply
driver is chosen exactly when the hint equals `linkedin` or the URL contains
the network domain; otherwise the job-board driver exactly when the hint
equals `indeed` or the URL contains the job-board domain; otherwise the
generic driver.  A network-domain URL therefore overrides an `indeed` hint;
pure domain dispatch describes the outcome only when no hint is supplied. -/
theorem claim5_amended :
    ∀ (platform : Option String) (job_url : String),
      (select_applicator platform job_url = .linkedinD ↔
        (platform = some "linkedin" ∨ strOccurs "linkedin.com" (strLower job_url) = true))
      ∧ (select_applicator platform job_url = .indeedD ↔
        (¬(platform = some "linkedin" ∨ strOccurs "linkedin.com" (strLower job_url) = true)
          ∧ (platform = some "indeed" ∨ strOccurs "indeed.com" (strLower job_url) = true)))
      ∧ (select_applicator platform job_url = .genericD ↔
        (¬(platform = some "linkedin" ∨ strOccurs "linkedin.com" (strLower job_url) = true)
          ∧ ¬(platform = some "indeed" ∨ strOccurs "indeed.com" (strLower job_url) = true))) := by
  intro platform job_url
  unfold select_applicator
  split_ifs with h1 h2 <;>
    simp_all

/-- Claim C6: both multi-step loops are total functions of the page sequence;
the final step counter never exceeds the fixed bound (10 for the quick-apply
loop, 15 for the job-board loop), an unsuccessful run reports the step count
reached in its incompletion message, and when neither a submit nor a continue
control ever appears the loop stops after its first iteration with that
incompletion result instead of an exception. -/
theorem claim6_step_bound :
    ∀ (sv cv sm : Nat → Bool) (dryRun : Bool),
      ((navigate_easy_apply_steps sv cv sm dryRun).steps ≤ 10
        ∧ ((navigate_easy_apply_steps sv cv sm dryRun).success = false →
          (navigate_easy_apply_steps sv cv sm dryRun).message =
            "Could not complete application after "
              ++ toString (navigate_easy_apply_steps sv cv sm dryRun).steps ++ " steps"))
      ∧ ((navigate_indeed_steps sv cv sm dryRun).steps ≤ 15
        ∧ ((navigate_indeed_steps sv cv sm dryRun).success = false →
          (navigate_indeed_steps sv cv sm dryRun).message =
            "Could not complete application after "
              ++ toString (navigate_indeed_steps sv cv sm dryRun).steps ++ " steps"))
      ∧ ((∀ n, sv n = false ∧ cv n = false) →
        navigate_easy_apply_steps sv cv sm dryRun =
          ⟨false, "Could not complete application after 1 steps", 1, false⟩
        ∧ navigate_indeed_steps sv cv sm dryRun =
          ⟨false, "Could not complete application after 1 steps", 1, false⟩) := by
  intro sv cv sm dryRun
  refine ⟨⟨?_, ?_⟩, ⟨?_, ?_⟩, ?_⟩
  · simpa using stepLoopAux_steps_le sv cv sm dryRun 10 0
  · exact stepLoopAux_msg sv cv sm dryRun 10 0
  · simpa using stepLoopAux_steps_le sv cv sm dryRun 15 0
  · exact stepLoopAux_msg sv cv sm dryRun 15 0
  · intro h
    constructor <;>
      simp [navigate_easy_apply_steps, navigate_indeed_steps, stepLoopAux,
        (h 1).1, (h 1).2] <;>
      decide

/-- Claim C6, witness: on a page sequence with no controls at all, both loops
stop after one step with the incompletion message and within their bounds. -/
theorem claim6_witness :
    (navigate_easy_apply_steps noControl noControl noControl false).steps ≤ 10
    ∧ (navigate_indeed_steps noControl noControl noControl false).steps ≤ 15
    ∧ (navigate_easy_apply_steps noControl noControl noControl false).message =
        "Could not complete application after "
          ++ toString (navigate_easy_apply_steps noControl noControl noControl false).steps
          ++ " steps"
    ∧ navigate_indeed_steps noControl noControl noControl false =
        ⟨false, "Could not complete application after 1 steps", 1, false⟩ := by
  have h := claim6_step_bound noControl noControl noControl false
  exact ⟨h.1.1, h.2.1.1, h.1.2 (by decide),
    (h.2.2 (fun n => ⟨rfl, rfl⟩)).2⟩

/-- Claim C10: a required detected field is reported missing exactly when its
name is not a substring of the serialized profile dict; the empty string is a
substring of everything, so a required field with empty name is never
reported, and when every required field has an empty name the generic driver
never exits through the missing-required-fields draft branch. -/
theorem claim10_empty_name :
    ∀ (fields : List FormField) (dump n : String),
      (n ∈ missing_fields fields dump ↔
        ∃ f ∈ fields, f.required = true ∧ strOccurs f.name dump = false ∧ f.name = n)
      ∧ ¬("" ∈ missing_fields fields dump)
      ∧ ((∀ f ∈ fields, f.required = true → f.name = "") →
          missing_fields fields dump = [])
      ∧ (∀ (env : GenericEnv) (req : ApplicationRequest),
          (∀ f ∈ env.fields, f.required = true → f.name = "") →
          (genericApply env req).exit ≠ ExitPath.missingReq) := by
  intro fields dump n
  refine ⟨missing_fields_mem fields dump n, ?_,
    missing_fields_nil_of_unnamed fields dump, ?_⟩
  · intro hin
    rcases (missing_fields_mem fields dump "").1 hin with ⟨f, _, _, hocc, hname⟩
    rw [hname] at hocc
    simp [strOccurs_nil_left] at hocc
  · intro env req hreq
    have hnil : missing_fields env.fields req.profileDump = [] :=
      missing_fields_nil_of_unnamed _ _ hreq
    have hexit := genericAfterNav_exit_ne_missing env req hnil
    unfold genericApply genericApplyBody
    rcases hnc : env.newContextExc with _ | e
    · rcases hg : env.gotoExc with _ | e
      · simpa using hexit
      · cases e <;> simp
    · cases e <;> simp

/-- Claim C10, witness: one required field named by the empty string is not
reported missing and the generic driver does not take the missing-fields
draft exit for it. -/
theorem claim10_witness :
    missing_fields unnamedReqFieldW "x" = []
    ∧ ¬("" ∈ missing_fields unnamedReqFieldW "x")
    ∧ (genericApply geUnnamedW reqLive).exit ≠ ExitPath.missingReq := by
  have h := claim10_empty_name unnamedReqFieldW "x" ""
  exact ⟨h.2.2.1 (by decide), h.2.1, h.2.2.2 geUnnamedW reqLive (by decide)⟩

/-- Claim C9: whenever the payload fails any of the specified checks — not
exactly five colon-separated parts, version tag other than v1, decoded salt
not 32 bytes, decoded IV not 16 bytes, decoded auth tag not 16 bytes, or AEAD
authentication failure — `decrypt` produces the single decryption-failure
error and never a plaintext. -/
theorem claim9_reject :
    ∀ (env : CryptoEnv) (secret payload : String),
      badPayload env secret payload = true →
      isOkE (decrypt env secret payload) = false := by
  intro env secret payload
  unfold badPayload decrypt
  generalize pySplit (Char.ofNat 58) payload = parts
  intro h
  rcases parts with _ | ⟨v, _ | ⟨sb, _ | ⟨ib, _ | ⟨tb, _ | ⟨cb, _ | ⟨x, rest⟩⟩⟩⟩⟩⟩
  · simp [decryptParts, isOkE]
  · simp [decryptParts, isOkE]
  · simp [decryptParts, isOkE]
  · simp [decryptParts, isOkE]
  · simp [decryptParts, isOkE]
  case cons.cons.cons.cons.cons.nil =>
    by_cases hv : v = "v1"
    · rcases e1 : env.b64decode sb with m1 | salt
      · simp [decryptParts, hv, e1, isOkE]
      rcases e2 : env.b64decode ib with m2 | iv
      · simp [decryptParts, hv, e1, e2, isOkE]
      rcases e3 : env.b64decode tb with m3 | auth_tag
      · simp [decryptParts, hv, e1, e2, e3, isOkE]
      rcases e4 : env.b64decode cb with m4 | ciphertext
      · simp [decryptParts, hv, e1, e2, e3, e4, isOkE]
      by_cases l1 : salt.length = 32
      · by_cases l2 : iv.length = 16
        · by_cases l3 : auth_tag.length = 16
          · rcases e5 : env.aeadDecrypt (env.deriveKey secret salt) iv auth_tag
                ciphertext with m5 | plaintext
            · simp [decryptParts, hv, e1, e2, e3, e4, l1, l2, l3, e5, isOkE]
            · simp [badParts, hv, e1, e2, e3, e4, l1, l2, l3, e5, isOkE] at h
          · simp [decryptParts, hv, e1, e2, e3, e4, l1, l2, l3, isOkE]
        · simp [decryptParts, hv, e1, e2, e3, e4, l1, l2, isOkE]
      · simp [decryptParts, hv, e1, e2, e3, e4, l1, isOkE]
    · simp [decryptParts, hv, isOkE]
  · simp [decryptParts, isOkE]

/-- Claim C9, witness: a payload that does not split into five parts is
malformed and `decrypt` rejects it. -/
theorem claim9_witness :
    badPayload cryptoEnvW "secret" "not-a-payload" = true
    ∧ isOkE (decrypt cryptoEnvW "secret" "not-a-payload") = false :=
  ⟨by decide, claim9_reject cryptoEnvW "secret" "not-a-payload" (by decide)⟩

theorem genericApply_submit_char (ge : GenericEnv) (req : ApplicationRequest) :
    ((genericApply ge req).result.status = .success →
      (genericApply ge req).submitClicked = true ∧ req.dry_run = false)
    ∧ (req.dry_run = true →
      (genericApply ge req).submitClicked = false
      ∧ (genericApply ge req).result.status ≠ .success) := by
  unfold genericApply genericApplyBody genericAfterNav
  rcases hnc : ge.newContextExc with _ | e
  · rcases hg : ge.gotoExc with _ | e
    · rcases hb : check_for_blockers ge.content ge.url with _ | b
      · cases hd : req.dry_run
        · by_cases hm :
            (missing_fields ge.fields req.profileDump).isEmpty = true
          · by_cases hs :
              submitLoop ge.submitVisible ge.submitClickRaises submit_selectors = true
            · simp [hm, hs]
            · simp [hm, hs]
          · simp [hm]
        · simp
      · rcases check_for_blockers_mem ge.content ge.url b hb with h | h <;>
          simp [h]
    · cases e <;> simp
  · cases e <;> simp

theorem indeedApply_submit_char (ie : IndeedEnv) (req : ApplicationRequest) :
    ((indeedApply ie req).result.status = .success →
      (indeedApply ie req).submitClicked = true ∧ req.dry_run = false)
    ∧ (req.dry_run = true →
      (indeedApply ie req).submitClicked = false
      ∧ (indeedApply ie req).result.status ≠ .success) := by
  unfold indeedApply wrapAttempt indeedApplyBody
  rcases hnc : ie.newContextExc with _ | e
  · rcases hg : ie.gotoExc with _ | e
    · by_cases hc : ie.applyClicked = true
      · by_cases hext : strOccurs "indeed.com" (strLower ie.postClickUrl) = true
        · by_cases hlog :
            (!ie.loggedIn && strOccurs "/account/login" ie.postClickUrl) = true
          · simp [hc, hext, hlog]
          · rcases hb : check_for_blockers ie.content ie.postClickUrl with _ | b
            · cases hd : req.dry_run
              · by_cases hsucc : (stepLoopAux ie.submitVisibleAt
                    ie.continueVisibleAt ie.successMarkerAt false 0 15).success = true
                · have hcl := stepLoopAux_click_of_success ie.submitVisibleAt
                    ie.continueVisibleAt ie.successMarkerAt 15 0 hsucc
                  simp [navigate_indeed_steps, hc, hext, hlog, hb, hsucc, hcl]
                · simp [navigate_indeed_steps, hc, hext, hlog, hb, hsucc]
              · have hcl := stepLoopAux_dry_no_click ie.submitVisibleAt
                  ie.continueVisibleAt ie.successMarkerAt 15 0
                simp [navigate_indeed_steps, hc, hext, hlog, hb, hcl]
            · rcases check_for_blockers_mem ie.content ie.postClickUrl b hb with h | h <;>
                simp [hc, hext, hlog, hb, h]
        · simp [hc, hext]
      · simp [hc]
    · cases e <;> simp
  · cases e <;> simp

/-- Claim C1: for the generic and the Indeed driver, `apply` reports
`success` only when a submit control was actually clicked and the request was
not a dry run; under `dry_run` no submit click ever happens and the status is
never `success`. -/
theorem claim1_dry_and_success :
    ∀ (ge : GenericEnv) (ie : IndeedEnv) (req : ApplicationRequest),
      ((genericApply ge req).result.status = .success →
        (genericApply ge req).submitClicked = true ∧ req.dry_run = false)
      ∧ (req.dry_run = true →
        (genericApply ge req).submitClicked = false
        ∧ (genericApply ge req).result.status ≠ .success)
      ∧ ((indeedApply ie req).result.status = .success →
        (indeedApply ie req).submitClicked = true ∧ req.dry_run = false)
      ∧ (req.dry_run = true →
        (indeedApply ie req).submitClicked = false
        ∧ (indeedApply ie req).result.status ≠ .success) := by
  intro ge ie req
  exact ⟨(genericApply_submit_char ge req).1, (genericApply_submit_char ge req).2,
    (indeedApply_submit_char ie req).1, (indeedApply_submit_char ie req).2⟩

/-- Claim C1, witness: a clean page with a visible submit control yields
`success` with a recorded submit click when not a dry run, and the same
environments under `dry_run` yield no click and a non-success status. -/
theorem claim1_witness :
    ((genericApply geSubmitW reqLive).result.status = ApplicationStatus.success
      ∧ (genericApply geSubmitW reqLive).submitClicked = true
      ∧ reqLive.dry_run = false)
    ∧ ((genericApply geSubmitW reqDry).submitClicked = false
      ∧ (genericApply geSubmitW reqDry).result.status ≠ ApplicationStatus.success)
    ∧ ((indeedApply ieSubmitW reqLive).result.status = ApplicationStatus.success
      ∧ (indeedApply ieSubmitW reqLive).submitClicked = true)
    ∧ ((indeedApply ieSubmitW reqDry).submitClicked = false
      ∧ (indeedApply ieSubmitW reqDry).result.status ≠ ApplicationStatus.success) := by
  have hL := claim1_dry_and_success geSubmitW ieSubmitW reqLive
  have hD := claim1_dry_and_success geSubmitW ieSubmitW reqDry
  refine ⟨⟨by decide, (hL.1 (by decide)).1, (hL.1 (by decide)).2⟩,
    hD.2.1 (by decide),
    ⟨by decide, ((hL.2.2.1) (by decide)).1⟩,
    hD.2.2.2 (by decide)⟩

theorem genericApply_job_url (ge : GenericEnv) (req : ApplicationRequest) :
    (genericApply ge req).result.job_url = req.job_url := by
  unfold genericApply genericApplyBody genericAfterNav
  rcases hnc : ge.newContextExc with _ | e
  · rcases hg : ge.gotoExc with _ | e
    · rcases hb : check_for_blockers ge.content ge.url with _ | b
      · cases hd : req.dry_run
        · by_cases hm :
            (missing_fields ge.fields req.profileDump).isEmpty = true <;>
          by_cases hs :
            submitLoop ge.submitVisible ge.submitClickRaises submit_selectors = true <;>
          simp [hm, hs]
        · simp
      · simp
    · cases e <;> simp
  · cases e <;> simp

theorem genericApply_ctx (ge : GenericEnv) (req : ApplicationRequest) :
    (genericApply ge req).contextClosed = (genericApply ge req).contextOpened := by
  unfold genericApply
  rcases h : genericApplyBody ge req with e | x
  · cases e <;> simp [h]
  · rcases x with ⟨r, c, p⟩
    simp [h]

theorem wrapAttempt_facts (u : String) (b : Bool)
    (body : Except PyExc (ApplicationResult × Bool)) :
    (body = .error .timeoutErr →
      (wrapAttempt u b body).result.status = .timeout
      ∧ (wrapAttempt u b body).result.message = "Page load timeout")
    ∧ (∀ m, body = .error (.otherErr m) →
      (wrapAttempt u b body).result.status = .failed
      ∧ (wrapAttempt u b body).result.message = "Application failed: " ++ m)
    ∧ (wrapAttempt u b body).contextClosed = (wrapAttempt u b body).contextOpened := by
  refine ⟨?_, ?_, ?_⟩
  · intro h; simp [wrapAttempt, h]
  · intro m h; simp [wrapAttempt, h]
  · rcases h : body with e | x
    · cases e <;> simp [wrapAttempt, h]
    · rcases x with ⟨r, c⟩
      simp [wrapAttempt, h]

theorem linkedinApply_job_url (le : LinkedInEnv) (req : ApplicationRequest) :
    (linkedinApply le req).result.job_url = req.job_url := by
  unfold linkedinApply wrapAttempt linkedinApplyBody
  rcases hnc : le.newContextExc with _ | e
  · rcases hg : le.gotoExc with _ | e
    · by_cases hl : le.loggedIn = true
      · by_cases hea : le.easyApplyClicked = true
        · rcases hb : check_for_blockers le.content le.url with _ | b
          · by_cases hs : (navigate_easy_apply_steps le.submitVisibleAt
                le.continueVisibleAt le.successMarkerAt req.dry_run).success = true <;>
              simp [hl, hea, hb, hs]
          · simp [hl, hea, hb]
        · simp [hl, hea]
      · simp [hl]
    · cases e <;> simp
  · cases e <;> simp

/-- Claim C3: for the generic and the LinkedIn driver, the attempt body
raising a navigation timeout produces a `timeout` result with the fixed
message, any other exception produces a `failed` result with the exception
message embedded, the result always carries the request URL, and every
attempt that opened a browsing context closes it — the handler is total, so
no exception reaches the caller. -/
theorem claim3_error_paths :
    ∀ (ge : GenericEnv) (le : LinkedInEnv) (req : ApplicationRequest),
      ((genericApplyBody ge req = .error .timeoutErr →
          (genericApply ge req).result.status = .timeout
          ∧ (genericApply ge req).result.message = "Page load timeout")
        ∧ (∀ m, genericApplyBody ge req = .error (.otherErr m) →
          (genericApply ge req).result.status = .failed
          ∧ (genericApply ge req).result.message = "Application failed: " ++ m)
        ∧ (genericApply ge req).result.job_url = req.job_url
        ∧ ((genericApply ge req).contextOpened = true →
          (genericApply ge req).contextClosed = true))
      ∧ ((linkedinApplyBody le req = .error .timeoutErr →
          (linkedinApply le req).result.status = .timeout
          ∧ (linkedinApply le req).result.message = "Page load timeout")
        ∧ (∀ m, linkedinApplyBody le req = .error (.otherErr m) →
          (linkedinApply le req).result.status = .failed
          ∧ (linkedinApply le req).result.message = "Application failed: " ++ m)
        ∧ (linkedinApply le req).result.job_url = req.job_url
        ∧ ((linkedinApply le req).contextOpened = true →
          (linkedinApply le req).contextClosed = true)) := by
  intro ge le req
  have hw := wrapAttempt_facts req.job_url le.newContextExc.isNone
    (linkedinApplyBody le req)
  refine ⟨⟨?_, ?_, genericApply_job_url ge req, ?_⟩,
    ⟨hw.1, hw.2.1, linkedinApply_job_url le req, ?_⟩⟩
  · intro h; simp [genericApply, h]
  · intro m h; simp [genericApply, h]
  · intro h; exact (genericApply_ctx ge req).trans h
  · intro h; exact hw.2.2.trans h

/-- Claim C3, witness: concrete timeout and non-timeout failures on both
drivers produce the mapped statuses and messages, with the context closed. -/
theorem claim3_witness :
    (genericApply geTimeoutW reqLive).result.status = ApplicationStatus.timeout
    ∧ (genericApply geTimeoutW reqLive).result.message = "Page load timeout"
    ∧ (genericApply geOtherW reqLive).result.status = ApplicationStatus.failed
    ∧ (genericApply geOtherW reqLive).result.message = "Application failed: boom"
    ∧ (linkedinApply leTimeoutW reqLive).result.status = ApplicationStatus.timeout
    ∧ (linkedinApply leOtherW reqLive).result.message = "Application failed: boom"
    ∧ (genericApply geTimeoutW reqLive).result.job_url = reqLive.job_url
    ∧ (genericApply geTimeoutW reqLive).contextClosed = true := by
  have h1 := claim3_error_paths geTimeoutW leTimeoutW reqLive
  have h2 := claim3_error_paths geOtherW leOtherW reqLive
  exact ⟨(h1.1.1 rfl).1, (h1.1.1 rfl).2, (h2.1.2.1 "boom" rfl).1,
    (h2.1.2.1 "boom" rfl).2, (h1.2.1 rfl).1, (h2.2.2.1 "boom" rfl).2,
    h1.1.2.2.1, h1.1.2.2.2 (by decide)⟩

/-- Claim C7, counterexample: a batch request with `max_applications = -1`
and one URL yields `total_jobs = 0`, while `min(len(job_urls),
max_applications) = -1` — a negative `max_applications` makes the Python
slice drop URLs from the end, so the claimed equation fails. -/
theorem claim7_counterexample :
    (batch_apply_to_jobs applyAtW ["https://a.example/j"] (-1)).total_jobs = 0
    ∧ min ((["https://a.example/j"] : List String).length : Int) (-1) = -1
    ∧ ((0 : Int) ≠ (-1 : Int)) := by
  refine ⟨by decide, by decide, by decide⟩

/-- Claim C7, amended: every batch response satisfies
`successful + drafted + failed = total_jobs` with one result per truncated
URL in request order, and `total_jobs = min(len(job_urls), max_applications)`
holds whenever `max_applications` is non-negative (a negative value instead
truncates from the end by Python slice semantics). -/
theorem claim7_amended :
    ∀ (applyAt : Nat → String → ApplicationResult) (job_urls : List String)
      (k : Int),
      (batch_apply_to_jobs applyAt job_urls k).successful
          + (batch_apply_to_jobs applyAt job_urls k).drafted
          + (batch_apply_to_jobs applyAt job_urls k).failed
        = (batch_apply_to_jobs applyAt job_urls k).total_jobs
      ∧ (batch_apply_to_jobs applyAt job_urls k).results.length
        = (batch_apply_to_jobs applyAt job_urls k).total_jobs
      ∧ (0 ≤ k →
          ((batch_apply_to_jobs applyAt job_urls k).total_jobs : Int)
            = min (job_urls.length : Int) k) := by
  intro applyAt job_urls k
  refine ⟨?_, ?_, ?_⟩
  · simp only [batch_apply_to_jobs]
    rw [← List.foldl_map (fun r : ApplicationResult => r.status) tallyStatus]
    rw [foldl_tally_sum]
    simp
  · simp [batch_apply_to_jobs]
  · intro hk
    simp only [batch_apply_to_jobs, pySliceTo, if_pos hk, List.length_take]
    omega

/-- Claim C7, witness: a two-URL batch with `max_applications = 5` satisfies
both the bucket-sum equation and the min equation. -/
theorem claim7_witness :
    (batch_apply_to_jobs applyAtW ["https://a.example/j", "https://b.example/j"] 5).successful
        + (batch_apply_to_jobs applyAtW ["https://a.example/j", "https://b.example/j"] 5).drafted
        + (batch_apply_to_jobs applyAtW ["https://a.example/j", "https://b.example/j"] 5).failed
      = (batch_apply_to_jobs applyAtW ["https://a.example/j", "https://b.example/j"] 5).total_jobs
    ∧ ((batch_apply_to_jobs applyAtW ["https://a.example/j", "https://b.example/j"] 5).total_jobs : Int)
      = min ((["https://a.example/j", "https://b.example/j"] : List String).length : Int) 5 := by
  have h := claim7_amended applyAtW ["https://a.example/j", "https://b.example/j"] 5
  exact ⟨h.1, h.2.2 (by decide)⟩

/-- Claim C8, counterexample: with two detected fields, neither required and
one auto-fillable, the source computes an estimate of 50 (dividing by the
number of detected fields), while the claimed formula divides by the count of
required fields, which is 0 — the claimed estimate (with natural division by
zero) is 0, not 50, so the claimed formula does not describe the code. -/
theorem claim8_counterexample :
    estimated_fill_rate c8fieldsW = 50
    ∧ estimated_fill_rate_spec c8fieldsW = 0
    ∧ estimated_fill_rate c8fieldsW ≠ estimated_fill_rate_spec c8fieldsW := by
  refine ⟨by decide, by decide, by decide⟩

/-- Claim C8, amended: the estimate divides the fillable count by the number
of required fields only when at least one required field was detected; with
no required fields it divides by the number of all detected fields, and with
no detected fields at all it is 100; the result is capped at 100, and
`can_apply` holds exactly when the blocker list is empty and the estimate is
at least 60. -/
theorem claim8_amended :
    ∀ (fields : List FormField) (content url : String),
      ((required_field_names fields).isEmpty = false →
        estimated_fill_rate fields
          = min 100 (fillable_count fields * 100 / (required_field_names fields).length))
      ∧ ((required_field_names fields).isEmpty = true → fields ≠ [] →
        estimated_fill_rate fields
          = min 100 (fillable_count fields * 100 / fields.length))
      ∧ (fields = [] → estimated_fill_rate fields = 100)
      ∧ (analyze_can_apply content url fields = true ↔
          (analysisBlockers content url = []
            ∧ 60 ≤ estimated_fill_rate fields)) := by
  intro fields content url
  refine ⟨?_, ?_, ?_, ?_⟩
  · intro hne
    have hlen : 0 < (required_field_names fields).length := by
      rcases hr : required_field_names fields with _ | ⟨a, t⟩
      · rw [hr] at hne; simp at hne
      · simp
    have hmax : max (required_field_names fields).length 1
        = (required_field_names fields).length := Nat.max_eq_left (by omega)
    simp [estimated_fill_rate, hne, hlen, hmax]
  · intro hemp hne
    have hlen : 0 < fields.length := List.length_pos.mpr hne
    have hmax : max fields.length 1 = fields.length := Nat.max_eq_left (by omega)
    simp [estimated_fill_rate, hemp, hlen, hmax]
  · intro h; subst h; decide
  · simp [analyze_can_apply, Bool.and_eq_true, List.isEmpty_iff,
      decide_eq_true_eq]

/-- Claim C8, witness: the amended formula evaluated on a page with one
required fillable field, on a page with one optional non-fillable field, and
on an empty page, together with the `can_apply` equivalence. -/
theorem claim8_witness :
    estimated_fill_rate c8reqFieldW
      = min 100 (fillable_count c8reqFieldW * 100
          / (required_field_names c8reqFieldW).length)
    ∧ estimated_fill_rate c8plainFieldW
      = min 100 (fillable_count c8plainFieldW * 100 / c8plainFieldW.length)
    ∧ estimated_fill_rate ([] : List FormField) = 100
    ∧ (analyze_can_apply "" "" c8reqFieldW = true ↔
        (analysisBlockers "" "" = [] ∧ 60 ≤ estimated_fill_rate c8reqFieldW)) := by
  have h1 := claim8_amended c8reqFieldW "" ""
  have h2 := claim8_amended c8plainFieldW "" ""
  have h3 := claim8_amended ([] : List FormField) "" ""
  exact ⟨h1.1 (by decide), h2.2.1 (by decide) (by decide), h3.2.2.1 rfl, h1.2.2.2⟩

end CareerAuto
